import Mathlib

/-!
# Verification of the rocBLAS Tensile dispatch engine

A shallow embedding of the contraction-problem dispatch layer of rocBLAS
(`library/src/tensile_host.cpp`) and of the hbmv_batched argument-validation
ladder (`library/src/blas2/rocblas_hbmv_batched.cpp`), with theorems checking
the specified properties against the embedded code.
-/

/-! ## Basic enumerations (from rocblas.h / Tensile headers) -/

/-- The rocBLAS transpose-operation enumeration `rocblas_operation`. -/
inductive rocblas_operation where
  | none
  | transpose
  | conjugate_transpose
deriving DecidableEq, Repr

/-- The rocBLAS status codes used by the embedded code paths. -/
inductive rocblas_status where
  | success
  | invalid_handle
  | not_implemented
  | invalid_pointer
  | invalid_size
  | memory_error
  | internal_error
  | size_unchanged
deriving DecidableEq, Repr

/-- The rocBLAS element types appearing in the instantiated contraction
problems: `rocblas_half`, `rocblas_bfloat16`, `float`, `double`,
`rocblas_float_complex`, `rocblas_double_complex`, `int8_t`, `int32_t`. -/
inductive RocblasType where
  | half
  | bf16
  | f32
  | f64
  | cf32
  | cf64
  | i8
  | i32
deriving DecidableEq, Repr

/-- `sizeof` in bytes of each rocBLAS element type (C storage width). -/
def RocblasType.size : RocblasType → Nat
  | .half => 2
  | .bf16 => 2
  | .f32 => 4
  | .f64 => 8
  | .cf32 => 8
  | .cf64 => 16
  | .i8 => 1
  | .i32 => 4

/-- The `is_complex<T>` trait used by `ConstructTensileProblem`. -/
def RocblasType.is_complex : RocblasType → Bool
  | .cf32 => true
  | .cf64 => true
  | _ => false

/-- The `Tensile::DataType` enumeration. -/
inductive DataType where
  | Int8x4
  | Int32
  | Half
  | BFloat16
  | Float
  | Double
  | ComplexFloat
  | ComplexDouble
deriving DecidableEq, Repr

/-- `sizeof` in bytes of each Tensile data type.  `Int8x4` packs four one-byte
integers, so its size is 4. -/
def DataType.size : DataType → Nat
  | .Int8x4 => 4
  | .Int32 => 4
  | .Half => 2
  | .BFloat16 => 2
  | .Float => 4
  | .Double => 8
  | .ComplexFloat => 8
  | .ComplexDouble => 16

/-- The variable template `tensile_datatype<T>` mapping a rocBLAS type to the
corresponding `Tensile::DataType` (tensile_host.cpp lines 82-107); the
type-level mapping `rocblas_to_tensile_type<T>` follows exactly the same
correspondence. -/
def tensile_datatype : RocblasType → DataType
  | .half => .Half
  | .bf16 => .BFloat16
  | .f32 => .Float
  | .f64 => .Double
  | .cf32 => .ComplexFloat
  | .cf64 => .ComplexDouble
  | .i8 => .Int8x4
  | .i32 => .Int32

/-- `Tensile::TensorOp::Type` members used by this layer. -/
inductive TensorOp where
  | complexConjugate
deriving DecidableEq, Repr

/-- `value_category` classification of a host scalar (defined outside this
translation unit; kept abstract through a classifier argument). -/
inductive ValueCategory where
  | zeroVal
  | oneVal
  | genericVal
deriving DecidableEq, Repr

/-! ## Tensor descriptors and the contraction-problem model -/

/-- `Tensile::TensorDescriptor`: element type, per-dimension extents and
per-dimension strides, listed dimension 0 first (the stride-1 dimension). -/
structure TensorDescriptor where
  dtype : DataType
  sizes : List Nat
  strides : List Nat
deriving DecidableEq, Repr

/-- One entry of `Tensile::ContractionProblem::FreeIndices`: which operand it
belongs to (`isA`), its position `i` within that operand, and its positions
`c`, `d` in the output tensors. -/
structure FreeIndexEntry where
  isA : Bool
  i : Nat
  c : Nat
  d : Nat
deriving DecidableEq, Repr

/-- The single entry of `Tensile::ContractionProblem::BoundIndices`: the
position of the contracted dimension within A and within B. -/
structure BoundIndexEntry where
  a : Nat
  b : Nat
deriving DecidableEq, Repr

/-- One entry of `Tensile::ContractionProblem::BatchIndices`. -/
structure BatchIndexEntry where
  a : Nat
  b : Nat
  c : Nat
  d : Nat
deriving DecidableEq, Repr

/-- The parts of `Tensile::ContractionProblem` populated by
`ConstructTensileProblem`. -/
structure ContractionProblemModel where
  a : TensorDescriptor
  b : TensorDescriptor
  c : TensorDescriptor
  d : TensorDescriptor
  aops : List TensorOp
  bops : List TensorOp
  cops : List TensorOp
  dops : List TensorOp
  freeIndex : List FreeIndexEntry
  batchIndex : List BatchIndexEntry
  boundIndex : BoundIndexEntry
  betaCategory : ValueCategory
  highPrecisionAccumulate : Bool
deriving DecidableEq, Repr

/-- `RocblasContractionProblem<Ti, To, Tc>`: the logical GEMM request.  Scalars
alpha and beta have the compute type `Tc`, modelled by the parameter `α`.
Extents, leading dimensions and batch strides are sizes (`Nat`).  The device
data pointers A, B, C, D are passed through to the kernel unmodified and are
not part of the shape model. -/
structure RocblasContractionProblem (α : Type) where
  trans_a : rocblas_operation
  trans_b : rocblas_operation
  m : Nat
  n : Nat
  k : Nat
  batch_count : Nat
  ld_a : Nat
  stride_a : Nat
  ld_b : Nat
  stride_b : Nat
  ld_c : Nat
  stride_c : Nat
  ld_d : Nat
  stride_d : Nat
  alpha : α
  beta : α
deriving DecidableEq, Repr

/-- Embedding of `ConstructTensileProblem` (tensile_host.cpp lines 112-204).
`Ti`, `To`, `Tc` are the template arguments; `value_category` is the scalar
classifier applied to `*prob.beta`. -/
def ConstructTensileProblem {α : Type} (Ti To Tc : RocblasType)
    (value_category : α → ValueCategory)
    (prob : RocblasContractionProblem α) : ContractionProblemModel :=
  let Tensile_Ti := tensile_datatype Ti
  let Tensile_To := tensile_datatype To
  -- Tensile does not support 0-sized dimensions: for k == 0 pass k = 1
  -- (alpha is separately forced to 0 in GetTensileInputs).
  let k := if prob.k = 0 then 1 else prob.k
  -- If A is transposed, swap the free and bound dimensions and their ranks.
  let a : TensorDescriptor :=
    if prob.trans_a ≠ rocblas_operation.none then
      ⟨Tensile_Ti, [k, prob.m, prob.batch_count], [1, prob.ld_a, prob.stride_a]⟩
    else
      ⟨Tensile_Ti, [prob.m, k, prob.batch_count], [1, prob.ld_a, prob.stride_a]⟩
  let freeIndex0_i : Nat := if prob.trans_a ≠ rocblas_operation.none then 1 else 0
  let boundIndex_a : Nat := if prob.trans_a ≠ rocblas_operation.none then 0 else 1
  -- If A is complex and conjugated, add a ComplexConjugate op to aops.
  let aops : List TensorOp :=
    if Ti.is_complex = true ∧ prob.trans_a = rocblas_operation.conjugate_transpose then
      [TensorOp.complexConjugate]
    else []
  -- If B is transposed, swap the free and bound dimensions and their ranks.
  let b : TensorDescriptor :=
    if prob.trans_b ≠ rocblas_operation.none then
      ⟨Tensile_Ti, [prob.n, k, prob.batch_count], [1, prob.ld_b, prob.stride_b]⟩
    else
      ⟨Tensile_Ti, [k, prob.n, prob.batch_count], [1, prob.ld_b, prob.stride_b]⟩
  let freeIndex1_i : Nat := if prob.trans_b ≠ rocblas_operation.none then 0 else 1
  let boundIndex_b : Nat := if prob.trans_b ≠ rocblas_operation.none then 1 else 0
  -- If B is complex and conjugated, add a ComplexConjugate op to bops.
  let bops : List TensorOp :=
    if Ti.is_complex = true ∧ prob.trans_b = rocblas_operation.conjugate_transpose then
      [TensorOp.complexConjugate]
    else []
  { a := a
    b := b
    c := ⟨Tensile_To, [prob.m, prob.n, prob.batch_count], [1, prob.ld_c, prob.stride_c]⟩
    d := ⟨Tensile_To, [prob.m, prob.n, prob.batch_count], [1, prob.ld_d, prob.stride_d]⟩
    aops := aops
    bops := bops
    cops := []
    dops := []
    freeIndex := [⟨true, freeIndex0_i, 0, 0⟩, ⟨false, freeIndex1_i, 1, 1⟩]
    batchIndex := [⟨2, 2, 2, 2⟩]
    boundIndex := ⟨boundIndex_a, boundIndex_b⟩
    betaCategory := value_category prob.beta
    -- If HPA is active (sizeof(Tc) > sizeof(Ti)), mark it as true.
    highPrecisionAccumulate := decide (Ti.size < Tc.size) }

/-! ## Scalar marshaling (`AlphaBeta` and `GetTensileInputs`) -/

/-- Which copy path the `AlphaBeta<Ti, To, Tc>` template family takes.  The
primary template performs a raw same-size `memcpy`; the explicit
specialization `AlphaBeta<rocblas_half, rocblas_half, float>` first narrows
the float source to `rocblas_half` and then performs the byte copy
(tensile_host.cpp lines 210-237). -/
inductive CopyKind where
  | rawByteCopy
  | narrowFloatToHalfThenCopy
deriving DecidableEq, Repr

/-- Template-specialization selection for `AlphaBeta<Ti, To, Tc>::copy`. -/
def alphaBetaCopyKind (Ti To Tc : RocblasType) : CopyKind :=
  if Ti = RocblasType.half ∧ To = RocblasType.half ∧ Tc = RocblasType.f32 then
    CopyKind.narrowFloatToHalfThenCopy
  else
    CopyKind.rawByteCopy

/-- The Tensile-side scalar type `AlphaBeta<Ti, To, Tc>::tensile_type`: by
default `rocblas_to_tensile_type<Tc>::tensile_type`; for the
half-storage/float-accumulate specialization it is `Tensile::Half`. -/
def alphaBetaTensileType (Ti To Tc : RocblasType) : DataType :=
  if Ti = RocblasType.half ∧ To = RocblasType.half ∧ Tc = RocblasType.f32 then
    DataType.Half
  else
    tensile_datatype Tc

/-- The marshaled `Tensile::TypedContractionInputs` scalars.  The scalar type
`γ` is `AlphaBeta<Ti, To, Tc>::tensile_type`; the matrix device addresses
A, B, C, D are reinterpret-cast copies of the caller's pointers and are not
modelled. -/
structure TensileTypedInputs (γ : Type) where
  alpha : γ
  beta : γ
deriving DecidableEq, Repr

/-- Embedding of `GetTensileInputs` (tensile_host.cpp lines 242-285).  `copy`
is `AlphaBeta<Ti, To, Tc>::copy` on host values; `memset(&alpha, 0, ...)` on a
numeric scalar produces the additive identity, modelled by the `Zero`
instance. -/
def GetTensileInputs {α γ : Type} [Zero γ]
    (copy : α → γ) (prob : RocblasContractionProblem α) : TensileTypedInputs γ :=
  { -- We set alpha = 0 if k == 0 (see ConstructTensileProblem)
    alpha := if prob.k = 0 then (0 : γ) else copy prob.alpha
    beta := copy prob.beta }

/-! ## The eight instantiated type pairings -/

/-- The eight `runContractionProblem` template instantiations at the bottom of
tensile_host.cpp (lines 490-511), identified by their (Ti, To, Tc) triple. -/
inductive GemmInst where
  | hgemm      -- <rocblas_half>
  | sgemm      -- <float>
  | dgemm      -- <double>
  | cgemm      -- <rocblas_float_complex>
  | zgemm      -- <rocblas_double_complex>
  | hpaHalf    -- <rocblas_half, rocblas_half, float>
  | hpaBf16    -- <rocblas_bfloat16, rocblas_bfloat16, float>
  | gemmInt8   -- <int8_t, int32_t, int32_t>
deriving DecidableEq, Repr

/-- Input element type Ti of an instantiation. -/
def GemmInst.Ti : GemmInst → RocblasType
  | .hgemm => .half
  | .sgemm => .f32
  | .dgemm => .f64
  | .cgemm => .cf32
  | .zgemm => .cf64
  | .hpaHalf => .half
  | .hpaBf16 => .bf16
  | .gemmInt8 => .i8

/-- Output element type To of an instantiation. -/
def GemmInst.To : GemmInst → RocblasType
  | .hgemm => .half
  | .sgemm => .f32
  | .dgemm => .f64
  | .cgemm => .cf32
  | .zgemm => .cf64
  | .hpaHalf => .half
  | .hpaBf16 => .bf16
  | .gemmInt8 => .i32

/-- Accumulate/compute type Tc of an instantiation. -/
def GemmInst.Tc : GemmInst → RocblasType
  | .hgemm => .half
  | .sgemm => .f32
  | .dgemm => .f64
  | .cgemm => .cf32
  | .zgemm => .cf64
  | .hpaHalf => .f32
  | .hpaBf16 => .f32
  | .gemmInt8 => .i32

/-! ## Dispatcher control flow (`runContractionProblem`) -/

/-- A C++ exception as observed at the catch sites: either a
`std::exception` carrying its `what()` string, or any other thrown object. -/
inductive Exc where
  | std (what : String)
  | unknown
deriving DecidableEq, Repr

/-- The observable outcomes of the fallible steps inside
`runContractionProblem`'s try block, abstracting the GPU/library calls:
whether `ConstructTensileProblem` throws, what `findBestSolution` returns
(or throws), and whether `GetTensileInputs`, `solve`, or `launchKernels`
throw.  `findBest = .ok true` means a non-null solution was returned. -/
structure RunOutcomes where
  constructThrows : Option Exc
  findBest : Except Exc Bool
  getInputsThrows : Option Exc
  solveThrows : Option Exc
  launchThrows : Option Exc
deriving Repr

/-- Result of executing the try block of `runContractionProblem`: either a
normal completion carrying the status assigned in the block, or a thrown
exception together with the null-ness of the `solution` shared pointer at the
catch site (used in the diagnostic text). -/
inductive TryResult where
  | ok (s : rocblas_status)
  | thrown (e : Exc) (solutionFound : Bool)
deriving DecidableEq, Repr

/-- The try block of `runContractionProblem` (tensile_host.cpp lines 426-456),
step by step in source order. -/
def tryBody (o : RunOutcomes) : TryResult :=
  match o.constructThrows with
  | some e => .thrown e false
  | none =>
    match o.findBest with
    | .error e => .thrown e false
    | .ok false => .ok .not_implemented
    | .ok true =>
      match o.getInputsThrows with
      | some e => .thrown e true
      | none =>
        match o.solveThrows with
        | some e => .thrown e true
        | none =>
          match o.launchThrows with
          | some e => .thrown e true
          | none => .ok .success

/-- Embedding of `runContractionProblem` (tensile_host.cpp lines 418-474):
`status` starts as `internal_error`, the try block may overwrite it, and both
catch handlers fall through to `return status`. -/
def runContractionProblem (o : RunOutcomes) : rocblas_status :=
  match tryBody o with
  | .ok s => s
  | .thrown _ _ => .internal_error

/-! ## One-shot diagnostic latches -/

/-- The distinct diagnostic message contents `runContractionProblem` can emit,
parameterized by the printed representation `π` of the problem.  The three
constructors correspond to the three emission sites and produce structurally
distinct text ("No Tensile solution found for p", "... but E exception thown
for p", "... but unknown exception thown for p"). -/
inductive Diag (π : Type) where
  | noSolution (p : π)
  | stdExc (solutionFound : Bool) (what : String) (p : π)
  | unknownExc (solutionFound : Bool) (p : π)
deriving DecidableEq, Repr

/-- The function-local `static int once` latches of `runContractionProblem`,
one per emission site (per template instantiation, per process). -/
structure LatchState where
  noSolutionOnce : Bool
  stdExcOnce : Bool
  unknownExcOnce : Bool
deriving DecidableEq, Repr

/-- All latches unset: the process state before any call. -/
def LatchState.initial : LatchState := ⟨false, false, false⟩

/-- One call of `runContractionProblem` on problem `p` with step outcomes `o`:
returns the updated latch state and the diagnostics emitted by this call.
Each site's message is emitted only when its `static` initializer runs for the
first time. -/
def emitCall {π : Type} (st : LatchState) (p : π) (o : RunOutcomes) :
    LatchState × List (Diag π) :=
  match tryBody o with
  | .ok s =>
    if s = rocblas_status.not_implemented then
      if st.noSolutionOnce then (st, [])
      else ({ st with noSolutionOnce := true }, [Diag.noSolution p])
    else (st, [])
  | .thrown (.std w) sf =>
    if st.stdExcOnce then (st, [])
    else ({ st with stdExcOnce := true }, [Diag.stdExc sf w p])
  | .thrown .unknown sf =>
    if st.unknownExcOnce then (st, [])
    else ({ st with unknownExcOnce := true }, [Diag.unknownExc sf p])

/-- The diagnostics log produced by a sequence of calls, starting from latch
state `st`. -/
def processCalls {π : Type} (st : LatchState) :
    List (π × RunOutcomes) → List (Diag π)
  | [] => []
  | (p, o) :: rest =>
    let r := emitCall st p o
    r.2 ++ processCalls r.1 rest

/-! ## TensileHost initialization (constructor, lines 311-389) -/

/-- The result of `glob(dir, GLOB_NOSORT, nullptr, &glob_result)`: success with
the matched paths, `GLOB_NOMATCH`, `GLOB_ABORTED`, `GLOB_NOSPACE`, or another
nonzero return. -/
inductive GlobResult where
  | ok (paths : List String)
  | nomatch
  | aborted
  | nospace
  | unknownErr
deriving DecidableEq, Repr

/-- The environment the `TensileHost` constructor observes: the
`ROCBLAS_TENSILE_LIBPATH` variable, the `dladdr` lookup of the running
library's file name, the libc `dirname` function, the readability test
`access(path, R_OK) == 0` behind `TestPath`, the GPU architecture string
`"gfx" + device_arch_id()`, the glob outcome, and `strerror(errno)`. -/
structure InitEnv where
  env_libpath : Option String
  dladdr_fname : Option String
  dirname : String → String
  testPath : String → Bool
  processor : String
  globResult : GlobResult
  errnoStr : String

/-- The library search path computed by the constructor before the glob
(tensile_host.cpp lines 322-351): environment override, else the directory of
librocblas.so (or the hard-coded fallback), then the secondary conventional
subdirectory, then the architecture-named subdirectory if present. -/
def resolveBasePath (e : InitEnv) : String :=
  match e.env_libpath with
  | some p => p
  | none =>
    let path :=
      match e.dladdr_fname with
      | some fname => e.dirname fname
      | none => "/opt/rocm/rocblas/lib"
    let path :=
      if e.testPath (path ++ "/../../Tensile/library") then
        path ++ "/../../Tensile/library"
      else
        path ++ "/library"
    if e.testPath (path ++ "/" ++ e.processor) then path ++ "/" ++ e.processor
    else path

/-- The path of the master solution-metadata file tested at line 379. -/
def tensileYamlPath (e : InitEnv) : String :=
  resolveBasePath e ++ "/TensileLibrary.yaml"

/-- Outcome of the constructor: either a deterministic process abort carrying
the diagnostic written to `rocblas_cerr` just before `rocblas_abort()`, or a
loaded host naming the metadata file passed to `LoadLibraryFile`. -/
inductive InitOutcome where
  | abort (msg : String)
  | loaded (yamlPath : String)
deriving DecidableEq, Repr

/-- What the constructor produced: the code-object files handed to
`adapter.loadCodeObjectFile`, the warnings written to `rocblas_cerr`, and the
final outcome. -/
structure InitResult where
  loadedModules : List String
  warnings : List String
  outcome : InitOutcome
deriving Repr

/-- Embedding of the `TensileHost` constructor body (tensile_host.cpp lines
311-389): glob for architecture-matching code objects (a failed glob is only a
warning), then require the master metadata file to be readable, aborting with
a message naming that path otherwise. -/
def tensileHostInit (e : InitEnv) : InitResult :=
  let path := resolveBasePath e
  let dir := path ++ "/*" ++ e.processor ++ "*co"
  let mods : List String :=
    match e.globResult with
    | .ok ps => ps
    | _ => []
  let warns : List String :=
    match e.globResult with
    | .ok _ => []
    | .nomatch =>
      ["\nrocBLAS warning: No paths matched " ++ dir
        ++ ". Make sure that ROCBLAS_TENSILE_LIBPATH is set correctly."]
    | .aborted =>
      ["rocBLAS warning: glob(\"" ++ dir ++ "\", ...) returned GLOB_ABORTED."]
    | .nospace =>
      ["rocBLAS warning: glob(\"" ++ dir ++ "\", ...) returned GLOB_NOSPACE."]
    | .unknownErr =>
      ["rocBLAS warning: glob(\"" ++ dir ++ "\", ...) returned an unknown error."]
  let yaml := path ++ "/TensileLibrary.yaml"
  if e.testPath yaml then
    { loadedModules := mods, warnings := warns, outcome := .loaded yaml }
  else
    { loadedModules := mods, warnings := warns,
      outcome := .abort ("\nrocBLAS error: Cannot read " ++ yaml ++ ": " ++ e.errnoStr) }

/-- A `runContractionProblem` call as seen through `getTensileHost`: if host
construction aborted, the process terminates (no status is ever produced,
modelled as `.error` with the abort diagnostic); otherwise the dispatcher runs
and returns a status. -/
def dispatchContraction (e : InitEnv) (o : RunOutcomes) :
    Except String rocblas_status :=
  match (tensileHostInit e).outcome with
  | .abort m => .error m
  | .loaded _ => .ok (runContractionProblem o)

/-! ## hbmv_batched argument validation (rocblas_hbmv_batched.cpp) -/

/-- The arguments of `rocblas_hbmv_batched_impl` as far as validation is
concerned: handle state, the integer sizes (`rocblas_int`, a 32-bit signed
integer, embedded as `Int`), and the null-ness of each pointer argument. -/
structure HbmvArgs where
  handle_null : Bool
  is_size_query : Bool
  n : Int
  k : Int
  lda : Int
  incx : Int
  incy : Int
  batch_count : Int
  alpha_null : Bool
  A_null : Bool
  x_null : Bool
  y_null : Bool
  beta_null : Bool
deriving DecidableEq, Repr

/-- Embedding of `rocblas_hbmv_batched_impl` (rocblas_hbmv_batched.cpp lines
17-149): handle check, device-memory-size query quick return, size
validation, zero-size quick return, pointer validation, then the call to
`rocblas_hbmv_template` whose result is the abstract `template_result`.
Logging only formats arguments and is not modelled. -/
def rocblas_hbmv_batched_impl (template_result : rocblas_status)
    (a : HbmvArgs) : rocblas_status :=
  if a.handle_null then .invalid_handle
  else if a.is_size_query then .size_unchanged
  else if a.n < 0 ∨ a.k < 0 ∨ a.lda ≤ a.k ∨ a.incx = 0 ∨ a.incy = 0 ∨ a.batch_count < 0 then
    .invalid_size
  else if a.n = 0 ∨ a.batch_count = 0 then .success
  else if a.A_null ∨ a.x_null ∨ a.y_null ∨ a.alpha_null ∨ a.beta_null then
    .invalid_pointer
  else template_result

/-! ## Observation helpers and concrete example inputs -/

/-- The `i` field (position within operand A) of `freeIndex[0]`. -/
def ContractionProblemModel.freeIndexAi (P : ContractionProblemModel) : Nat :=
  (P.freeIndex.getD 0 ⟨true, 0, 0, 0⟩).i

/-- The `i` field (position within operand B) of `freeIndex[1]`. -/
def ContractionProblemModel.freeIndexBi (P : ContractionProblemModel) : Nat :=
  (P.freeIndex.getD 1 ⟨false, 0, 0, 0⟩).i

/-- The literal reading of the operand-layout claim on a constructed problem:
for each operand (A and B), a transposed operand has its extents ordered
contracted-dimension-first (extent 0 the bound dimension, extent 1 the free
dimension, hence bound position 0 and free position 1), a non-transposed
operand has them free-dimension-first (free position 0, bound position 1),
and the leading dimension is the stride of dimension 1 in both cases. -/
def OperandLayoutClaim {α : Type} (Ti To Tc : RocblasType)
    (vc : α → ValueCategory) (prob : RocblasContractionProblem α) : Prop :=
  (prob.trans_a ≠ rocblas_operation.none →
    (ConstructTensileProblem Ti To Tc vc prob).a.sizes
        = [if prob.k = 0 then 1 else prob.k, prob.m, prob.batch_count]
    ∧ (ConstructTensileProblem Ti To Tc vc prob).freeIndexAi = 1
    ∧ (ConstructTensileProblem Ti To Tc vc prob).boundIndex.a = 0)
  ∧ (prob.trans_a = rocblas_operation.none →
    (ConstructTensileProblem Ti To Tc vc prob).a.sizes
        = [prob.m, if prob.k = 0 then 1 else prob.k, prob.batch_count]
    ∧ (ConstructTensileProblem Ti To Tc vc prob).freeIndexAi = 0
    ∧ (ConstructTensileProblem Ti To Tc vc prob).boundIndex.a = 1)
  ∧ (prob.trans_b ≠ rocblas_operation.none →
    (ConstructTensileProblem Ti To Tc vc prob).b.sizes
        = [if prob.k = 0 then 1 else prob.k, prob.n, prob.batch_count]
    ∧ (ConstructTensileProblem Ti To Tc vc prob).freeIndexBi = 1
    ∧ (ConstructTensileProblem Ti To Tc vc prob).boundIndex.b = 0)
  ∧ (prob.trans_b = rocblas_operation.none →
    (ConstructTensileProblem Ti To Tc vc prob).b.sizes
        = [prob.n, if prob.k = 0 then 1 else prob.k, prob.batch_count]
    ∧ (ConstructTensileProblem Ti To Tc vc prob).freeIndexBi = 0
    ∧ (ConstructTensileProblem Ti To Tc vc prob).boundIndex.b = 1)
  ∧ (ConstructTensileProblem Ti To Tc vc prob).a.strides
      = [1, prob.ld_a, prob.stride_a]
  ∧ (ConstructTensileProblem Ti To Tc vc prob).b.strides
      = [1, prob.ld_b, prob.stride_b]

/-- The latch guarding the emission site of a given diagnostic content. -/
def latchFor {π : Type} (st : LatchState) : Diag π → Bool
  | .noSolution _ => st.noSolutionOnce
  | .stdExc _ _ _ => st.stdExcOnce
  | .unknownExc _ _ => st.unknownExcOnce

/-- A scalar classifier treating every value as generic. -/
def vcGeneric : Int → ValueCategory := fun _ => ValueCategory.genericVal

/-- A concrete sgemm-like request with contraction extent 0 (m = 64, n = 64,
k = 0, alpha = 5, beta = 2). -/
def probKZero : RocblasContractionProblem Int :=
  { trans_a := rocblas_operation.none, trans_b := rocblas_operation.transpose
    m := 64, n := 64, k := 0, batch_count := 1
    ld_a := 64, stride_a := 0, ld_b := 64, stride_b := 0
    ld_c := 64, stride_c := 0, ld_d := 64, stride_d := 0
    alpha := 5, beta := 2 }

/-- A concrete request with neither operand transposed and m, n, k pairwise
distinct (m = 2, n = 3, k = 5). -/
def probNN : RocblasContractionProblem Int :=
  { trans_a := rocblas_operation.none, trans_b := rocblas_operation.none
    m := 2, n := 3, k := 5, batch_count := 1
    ld_a := 2, stride_a := 0, ld_b := 5, stride_b := 0
    ld_c := 2, stride_c := 0, ld_d := 2, stride_d := 0
    alpha := 1, beta := 0 }

/-- The same shape with A transposed and B not transposed. -/
def probTN : RocblasContractionProblem Int :=
  { trans_a := rocblas_operation.transpose, trans_b := rocblas_operation.none
    m := 2, n := 3, k := 5, batch_count := 1
    ld_a := 5, stride_a := 0, ld_b := 5, stride_b := 0
    ld_c := 2, stride_c := 0, ld_d := 2, stride_d := 0
    alpha := 1, beta := 0 }

/-- Step outcomes of a call whose problem construction throws an unknown
exception. -/
def outcomesConstructThrows : RunOutcomes :=
  { constructThrows := some Exc.unknown, findBest := Except.ok false
    getInputsThrows := none, solveThrows := none, launchThrows := none }

/-- Step outcomes of a call for which solution selection finds no solution. -/
def outcomesNoSolution : RunOutcomes :=
  { constructThrows := none, findBest := Except.ok false
    getInputsThrows := none, solveThrows := none, launchThrows := none }

/-- An initialization environment whose filesystem has no readable paths at
all (in particular no readable TensileLibrary.yaml). -/
def envNoYaml : InitEnv :=
  { env_libpath := some "/opt/rocm/rocblas/lib/tensilelib"
    dladdr_fname := none
    dirname := fun s => s
    testPath := fun _ => false
    processor := "gfx906"
    globResult := GlobResult.nomatch
    errnoStr := "No such file or directory" }

/-- An initialization environment in which every path is readable but the
architecture glob matched nothing. -/
def envNoModules : InitEnv :=
  { env_libpath := some "/opt/rocm/rocblas/lib/tensilelib"
    dladdr_fname := none
    dirname := fun s => s
    testPath := fun _ => true
    processor := "gfx906"
    globResult := GlobResult.nomatch
    errnoStr := "" }

/-- hbmv_batched arguments with valid sizes, n = 0, and every pointer null. -/
def hbmvArgsQuickReturn : HbmvArgs :=
  { handle_null := false, is_size_query := false
    n := 0, k := 0, lda := 1, incx := 1, incy := 1, batch_count := 5
    alpha_null := true, A_null := true, x_null := true, y_null := true
    beta_null := true }

/-- hbmv_batched arguments with an invalid size (lda = 0 is not greater than
k = 0) and every pointer null. -/
def hbmvArgsBadSize : HbmvArgs :=
  { handle_null := false, is_size_query := false
    n := 4, k := 0, lda := 0, incx := 1, incy := 1, batch_count := 5
    alpha_null := true, A_null := true, x_null := true, y_null := true
    beta_null := true }

/-! ## Claim theorems -/

/-- C1: for every contraction problem with contraction extent k = 0, the
kernel-native alpha in the marshaled inputs is the additive identity
regardless of the caller-supplied alpha, beta receives exactly the ordinary
scalar copy (the same treatment as for any nonzero k, unaffected by the
workaround), and the contraction extent placed in the kernel-shape
descriptors (the extent at the bound-index position of both A and B) is 1. -/
theorem C1_zero_k_workaround {α γ : Type} [Zero γ]
    (Ti To Tc : RocblasType) (vc : α → ValueCategory) (copy : α → γ)
    (prob : RocblasContractionProblem α) (hk : prob.k = 0) :
    (GetTensileInputs copy prob).alpha = 0
    ∧ (GetTensileInputs copy prob).beta = copy prob.beta
    ∧ (∀ k' : Nat,
        (GetTensileInputs copy { prob with k := k' }).beta
          = (GetTensileInputs copy prob).beta)
    ∧ (ConstructTensileProblem Ti To Tc vc prob).a.sizes.getD
        (ConstructTensileProblem Ti To Tc vc prob).boundIndex.a 0 = 1
    ∧ (ConstructTensileProblem Ti To Tc vc prob).b.sizes.getD
        (ConstructTensileProblem Ti To Tc vc prob).boundIndex.b 0 = 1 := by
  refine ⟨by simp [GetTensileInputs, hk], rfl, fun k' => rfl, ?_, ?_⟩ <;>
    · simp only [ConstructTensileProblem, hk]
      split <;> simp

/-- Witness for C1 at a concrete problem (k = 0, alpha = 5, beta = 2,
identity scalar copy): alpha is marshaled as 0, beta literally unchanged, and
both bound extents are 1. -/
theorem C1_zero_k_workaround_witness :
    (GetTensileInputs id probKZero).alpha = 0
    ∧ (GetTensileInputs id probKZero).beta = id probKZero.beta
    ∧ (∀ k' : Nat,
        (GetTensileInputs id { probKZero with k := k' }).beta
          = (GetTensileInputs id probKZero).beta)
    ∧ (ConstructTensileProblem .f32 .f32 .f32 vcGeneric probKZero).a.sizes.getD
        (ConstructTensileProblem .f32 .f32 .f32 vcGeneric probKZero).boundIndex.a 0 = 1
    ∧ (ConstructTensileProblem .f32 .f32 .f32 vcGeneric probKZero).b.sizes.getD
        (ConstructTensileProblem .f32 .f32 .f32 vcGeneric probKZero).boundIndex.b 0 = 1 :=
  C1_zero_k_workaround .f32 .f32 .f32 vcGeneric id probKZero rfl

/-- C2 counterexample: the operand-layout claim, read literally for both
operands, fails on a concrete problem with neither operand transposed
(m = 2, n = 3, k = 5): the constructed B descriptor has extents
[5, 3, 1] — contracted-dimension-first — where the claim requires the
non-transposed free-dimension-first order [3, 5, 1]. -/
theorem C2_operand_layout_counterexample :
    ¬ OperandLayoutClaim .f32 .f32 .f32 vcGeneric probNN := by
  intro h
  unfold OperandLayoutClaim at h
  exact absurd (h.2.2.2.1 rfl).1 (by decide)

/-- C2 amended: operand A behaves exactly as the claim states
(contracted-dimension-first when transposed, free-dimension-first when not,
with the free/bound index positions swapped accordingly); operand B is the
mirror image (free-dimension-first when transposed,
contracted-dimension-first when not, bound position 0 exactly when B is not
transposed); in all cases the leading dimension is the stride of
dimension 1. -/
theorem C2_amended_operand_layout {α : Type} (Ti To Tc : RocblasType)
    (vc : α → ValueCategory) (prob : RocblasContractionProblem α) :
    (prob.trans_a ≠ rocblas_operation.none →
      (ConstructTensileProblem Ti To Tc vc prob).a.sizes
          = [if prob.k = 0 then 1 else prob.k, prob.m, prob.batch_count]
      ∧ (ConstructTensileProblem Ti To Tc vc prob).freeIndexAi = 1
      ∧ (ConstructTensileProblem Ti To Tc vc prob).boundIndex.a = 0)
    ∧ (prob.trans_a = rocblas_operation.none →
      (ConstructTensileProblem Ti To Tc vc prob).a.sizes
          = [prob.m, if prob.k = 0 then 1 else prob.k, prob.batch_count]
      ∧ (ConstructTensileProblem Ti To Tc vc prob).freeIndexAi = 0
      ∧ (ConstructTensileProblem Ti To Tc vc prob).boundIndex.a = 1)
    ∧ (prob.trans_b ≠ rocblas_operation.none →
      (ConstructTensileProblem Ti To Tc vc prob).b.sizes
          = [prob.n, if prob.k = 0 then 1 else prob.k, prob.batch_count]
      ∧ (ConstructTensileProblem Ti To Tc vc prob).freeIndexBi = 0
      ∧ (ConstructTensileProblem Ti To Tc vc prob).boundIndex.b = 1)
    ∧ (prob.trans_b = rocblas_operation.none →
      (ConstructTensileProblem Ti To Tc vc prob).b.sizes
          = [if prob.k = 0 then 1 else prob.k, prob.n, prob.batch_count]
      ∧ (ConstructTensileProblem Ti To Tc vc prob).freeIndexBi = 1
      ∧ (ConstructTensileProblem Ti To Tc vc prob).boundIndex.b = 0)
    ∧ (ConstructTensileProblem Ti To Tc vc prob).a.strides
        = [1, prob.ld_a, prob.stride_a]
    ∧ (ConstructTensileProblem Ti To Tc vc prob).b.strides
        = [1, prob.ld_b, prob.stride_b] := by
  refine ⟨fun ha => ?_, fun ha => ?_, fun hb => ?_, fun hb => ?_, ?_, ?_⟩
  · simp [ConstructTensileProblem, ContractionProblemModel.freeIndexAi, ha]
  · simp [ConstructTensileProblem, ContractionProblemModel.freeIndexAi, ha]
  · simp [ConstructTensileProblem, ContractionProblemModel.freeIndexBi, hb]
  · simp [ConstructTensileProblem, ContractionProblemModel.freeIndexBi, hb]
  · by_cases h : prob.trans_a = rocblas_operation.none <;>
      simp [ConstructTensileProblem, h]
  · by_cases h : prob.trans_b = rocblas_operation.none <;>
      simp [ConstructTensileProblem, h]

/-- Witness for C2's amended claim at a concrete problem with A transposed
and B not transposed (m = 2, n = 3, k = 5): A's extents are
contracted-dimension-first and B's extents are also
contracted-dimension-first. -/
theorem C2_amended_operand_layout_witness :
    ((ConstructTensileProblem .f32 .f32 .f32 vcGeneric probTN).a.sizes = [5, 2, 1]
      ∧ (ConstructTensileProblem .f32 .f32 .f32 vcGeneric probTN).freeIndexAi = 1
      ∧ (ConstructTensileProblem .f32 .f32 .f32 vcGeneric probTN).boundIndex.a = 0)
    ∧ ((ConstructTensileProblem .f32 .f32 .f32 vcGeneric probTN).b.sizes = [5, 3, 1]
      ∧ (ConstructTensileProblem .f32 .f32 .f32 vcGeneric probTN).freeIndexBi = 1
      ∧ (ConstructTensileProblem .f32 .f32 .f32 vcGeneric probTN).boundIndex.b = 0) :=
  ⟨(C2_amended_operand_layout .f32 .f32 .f32 vcGeneric probTN).1 (by decide),
   (C2_amended_operand_layout .f32 .f32 .f32 vcGeneric probTN).2.2.2.1 rfl⟩

/-- C3: for every operand of every constructed problem, the operand's
tensor-op set is the singleton complex-conjugate operator exactly when the
operand's transpose mode is conjugate-transpose and the input element type is
complex, and is empty in every other case (so conjugate-transpose on a real
operand attaches no operator). -/
theorem C3_conjugate_iff_complex {α : Type} (Ti To Tc : RocblasType)
    (vc : α → ValueCategory) (prob : RocblasContractionProblem α) :
    ((ConstructTensileProblem Ti To Tc vc prob).aops = [TensorOp.complexConjugate]
      ↔ (Ti.is_complex = true
        ∧ prob.trans_a = rocblas_operation.conjugate_transpose))
    ∧ ((ConstructTensileProblem Ti To Tc vc prob).aops = [TensorOp.complexConjugate]
      ∨ (ConstructTensileProblem Ti To Tc vc prob).aops = [])
    ∧ ((ConstructTensileProblem Ti To Tc vc prob).bops = [TensorOp.complexConjugate]
      ↔ (Ti.is_complex = true
        ∧ prob.trans_b = rocblas_operation.conjugate_transpose))
    ∧ ((ConstructTensileProblem Ti To Tc vc prob).bops = [TensorOp.complexConjugate]
      ∨ (ConstructTensileProblem Ti To Tc vc prob).bops = []) := by
  refine ⟨?_, ?_, ?_, ?_⟩ <;>
    · simp only [ConstructTensileProblem]
      split <;> simp_all

/-- C4: for each of the eight instantiated (Ti, To, Tc) pairings, the
high-precision-accumulate flag of the constructed problem is set exactly when
sizeof(Tc) strictly exceeds sizeof(Ti); concretely, exactly for the
half/float, bfloat16/float and int8/int32 pairings. -/
theorem C4_high_precision_accumulate {α : Type} (g : GemmInst)
    (vc : α → ValueCategory) (prob : RocblasContractionProblem α) :
    ((ConstructTensileProblem g.Ti g.To g.Tc vc prob).highPrecisionAccumulate = true
      ↔ g.Ti.size < g.Tc.size)
    ∧ ((ConstructTensileProblem g.Ti g.To g.Tc vc prob).highPrecisionAccumulate = true
      ↔ (g = GemmInst.hpaHalf ∨ g = GemmInst.hpaBf16 ∨ g = GemmInst.gemmInt8)) := by
  cases g <;>
    simp [ConstructTensileProblem, GemmInst.Ti, GemmInst.To, GemmInst.Tc,
      RocblasType.size]

/-- C9: among the eight instantiated type pairings, the scalar copy takes the
narrow-float-to-half-then-copy path exactly for the
(half, half, float) pairing, whose kernel-native scalar type is Tensile::Half
(same 2-byte width as the half storage type, strictly narrower than the
4-byte float source); every other pairing takes the primary template's raw
byte copy, whose destination Tensile scalar type has exactly the same
storage width as the source compute type Tc. -/
theorem C9_scalar_copy_paths (g : GemmInst) :
    (alphaBetaCopyKind g.Ti g.To g.Tc = CopyKind.narrowFloatToHalfThenCopy
      ↔ g = GemmInst.hpaHalf)
    ∧ (alphaBetaCopyKind g.Ti g.To g.Tc = CopyKind.rawByteCopy →
        (alphaBetaTensileType g.Ti g.To g.Tc).size = g.Tc.size)
    ∧ (g = GemmInst.hpaHalf →
        alphaBetaTensileType g.Ti g.To g.Tc = DataType.Half
        ∧ DataType.Half.size = RocblasType.half.size
        ∧ DataType.Half.size < RocblasType.f32.size) := by
  cases g <;> refine ⟨by decide, fun h => by first | rfl | exact absurd h (by decide),
    fun hg => by first | exact ⟨rfl, rfl, by decide⟩ | exact absurd hg (by decide)⟩

/-- Witness for C9 at two concrete pairings: the (half, half, float)
instantiation takes the narrowing path into a 2-byte Tensile::Half, and the
(bfloat16, bfloat16, float) instantiation takes the raw byte copy with a
4-byte destination matching its 4-byte compute type. -/
theorem C9_scalar_copy_paths_witness :
    (alphaBetaCopyKind GemmInst.hpaHalf.Ti GemmInst.hpaHalf.To GemmInst.hpaHalf.Tc
        = CopyKind.narrowFloatToHalfThenCopy
      ∧ alphaBetaTensileType GemmInst.hpaHalf.Ti GemmInst.hpaHalf.To GemmInst.hpaHalf.Tc
        = DataType.Half)
    ∧ (alphaBetaTensileType GemmInst.hpaBf16.Ti GemmInst.hpaBf16.To GemmInst.hpaBf16.Tc).size
        = GemmInst.hpaBf16.Tc.size :=
  ⟨⟨(C9_scalar_copy_paths GemmInst.hpaHalf).1.mpr rfl,
    ((C9_scalar_copy_paths GemmInst.hpaHalf).2.2 rfl).1⟩,
   (C9_scalar_copy_paths GemmInst.hpaBf16).2.1 rfl⟩

/-- C5: for every combination of step outcomes, `runContractionProblem`
returns exactly one status from the closed set success / not-implemented /
internal-error, and whenever any step of the try block throws, the catch
handlers leave the initial internal-error status in place, so an exception
yields internal-error and never propagates. -/
theorem C5_status_closed_set (o : RunOutcomes) :
    (runContractionProblem o = rocblas_status.success
      ∨ runContractionProblem o = rocblas_status.not_implemented
      ∨ runContractionProblem o = rocblas_status.internal_error)
    ∧ (∀ (e : Exc) (sf : Bool), tryBody o = TryResult.thrown e sf →
        runContractionProblem o = rocblas_status.internal_error) := by
  obtain ⟨ct, fb, gi, sv, lt⟩ := o
  cases ct with
  | some e => exact ⟨Or.inr (Or.inr rfl), fun _ _ _ => rfl⟩
  | none =>
    cases fb with
    | error e => exact ⟨Or.inr (Or.inr rfl), fun _ _ _ => rfl⟩
    | ok found =>
      cases found with
      | false => exact ⟨Or.inr (Or.inl rfl), fun _ _ h => nomatch h⟩
      | true =>
        cases gi with
        | some e => exact ⟨Or.inr (Or.inr rfl), fun _ _ _ => rfl⟩
        | none =>
          cases sv with
          | some e => exact ⟨Or.inr (Or.inr rfl), fun _ _ _ => rfl⟩
          | none =>
            cases lt with
            | some e => exact ⟨Or.inr (Or.inr rfl), fun _ _ _ => rfl⟩
            | none => exact ⟨Or.inl rfl, fun _ _ h => nomatch h⟩

/-- Witness for C5 at a concrete call whose problem construction throws: the
returned status is internal-error. -/
theorem C5_status_closed_set_witness :
    runContractionProblem outcomesConstructThrows = rocblas_status.internal_error :=
  (C5_status_closed_set outcomesConstructThrows).2 Exc.unknown false rfl

/-- A diagnostic appears in an emission batch only when its site latch was
unset, and afterwards that latch is set. -/
theorem emitCall_latch_step {π : Type} [DecidableEq π]
    (st : LatchState) (p : π) (o : RunOutcomes) (d : Diag π) :
    (emitCall st p o).2.count d ≤ 1
    ∧ (0 < (emitCall st p o).2.count d →
        latchFor st d = false ∧ latchFor (emitCall st p o).1 d = true)
    ∧ (latchFor st d = true → latchFor (emitCall st p o).1 d = true) := by
  cases htb : tryBody o with
  | ok s =>
    by_cases hs : s = rocblas_status.not_implemented
    · subst hs
      by_cases hl : st.noSolutionOnce <;> cases d <;>
        simp [emitCall, htb, hl, latchFor, List.count_cons] <;> split <;> simp
    · cases d <;> simp [emitCall, htb, hs, latchFor]
  | thrown e sf =>
    cases e with
    | std w =>
      by_cases hl : st.stdExcOnce <;> cases d <;>
        simp [emitCall, htb, hl, latchFor, List.count_cons] <;> split <;> simp
    | unknown =>
      by_cases hl : st.unknownExcOnce <;> cases d <;>
        simp [emitCall, htb, hl, latchFor, List.count_cons] <;> split <;> simp

/-- Once a diagnostic's site latch is set, that diagnostic never appears in
the log of any further call sequence. -/
theorem processCalls_count_zero_of_latch {π : Type} [DecidableEq π]
    (calls : List (π × RunOutcomes)) (st : LatchState) (d : Diag π)
    (h : latchFor st d = true) :
    (processCalls st calls).count d = 0 := by
  induction calls generalizing st with
  | nil => simp [processCalls]
  | cons po rest ih =>
    obtain ⟨p, o⟩ := po
    simp only [processCalls, List.count_append]
    have hstep := emitCall_latch_step st p o d
    have hemit : (emitCall st p o).2.count d = 0 := by
      by_contra hne
      have := (hstep.2.1 (Nat.pos_of_ne_zero hne)).1
      simp [h] at this
    rw [hemit, ih _ (hstep.2.2 h)]

/-- C8: for every sequence of calls through the dispatcher of one template
instantiation, starting from the fresh process state, each distinct
diagnostic message content appears at most once in the emitted log: every
emission site is guarded by a function-local one-shot latch, so no matter how
many calls fail, a given content is never printed twice. -/
theorem C8_diagnostics_at_most_once {π : Type} [DecidableEq π]
    (calls : List (π × RunOutcomes)) (d : Diag π) :
    (processCalls LatchState.initial calls).count d ≤ 1 := by
  suffices h : ∀ st : LatchState, (processCalls st calls).count d ≤ 1 from
    h LatchState.initial
  intro st
  induction calls generalizing st with
  | nil => simp [processCalls]
  | cons po rest ih =>
    obtain ⟨p, o⟩ := po
    simp only [processCalls, List.count_append]
    have hstep := emitCall_latch_step st p o d
    by_cases hemit : 0 < (emitCall st p o).2.count d
    · have hrest : (processCalls (emitCall st p o).1 rest).count d = 0 :=
        processCalls_count_zero_of_latch rest _ d (hstep.2.1 hemit).2
      omega
    · have h0 : (emitCall st p o).2.count d = 0 := by omega
      rw [h0]
      simpa using ih (emitCall st p o).1

/-- C6: if the master metadata file TensileLibrary.yaml under the resolved
library path is not readable at initialization, the constructor aborts the
process deterministically with a diagnostic that names the missing path, and
no contraction request is ever served (every dispatch attempt dies with the
abort instead of producing a status). -/
theorem string_append_assoc (a b c : String) : a ++ b ++ c = a ++ (b ++ c) :=
  congrArg String.mk (List.append_assoc a.data b.data c.data)

theorem C6_missing_metadata_aborts (e : InitEnv)
    (h : e.testPath (tensileYamlPath e) = false) :
    ∃ msg, (tensileHostInit e).outcome = InitOutcome.abort msg
      ∧ (∃ pre post, msg = pre ++ tensileYamlPath e ++ post)
      ∧ (∀ o : RunOutcomes, dispatchContraction e o = Except.error msg) := by
  have h' : e.testPath (resolveBasePath e ++ "/TensileLibrary.yaml") = false := h
  have habort : (tensileHostInit e).outcome
      = InitOutcome.abort ("\nrocBLAS error: Cannot read "
          ++ (resolveBasePath e ++ "/TensileLibrary.yaml")
          ++ ": " ++ e.errnoStr) := by
    simp [tensileHostInit, h']
  exact ⟨_, habort,
    ⟨"\nrocBLAS error: Cannot read ", ": " ++ e.errnoStr,
      string_append_assoc _ ": " e.errnoStr⟩,
    fun o => by simp [dispatchContraction, habort]⟩

/-- Witness for C6 at a concrete environment with an unreadable filesystem:
initialization aborts with a message naming the metadata path, and every
dispatch attempt terminates with that abort. -/
theorem C6_missing_metadata_aborts_witness :
    ∃ msg, (tensileHostInit envNoYaml).outcome = InitOutcome.abort msg
      ∧ (∃ pre post, msg = pre ++ tensileYamlPath envNoYaml ++ post)
      ∧ (∀ o : RunOutcomes, dispatchContraction envNoYaml o = Except.error msg) :=
  C6_missing_metadata_aborts envNoYaml rfl

/-- C7: if the architecture glob matches no compiled kernel module,
initialization still succeeds — no module is loaded and exactly one warning
is recorded — and any subsequent dispatch whose solution selection finds no
solution returns the not-implemented status (a status, never an exception or
a fallback path). -/
theorem C7_zero_modules_nonfatal (e : InitEnv) (o : RunOutcomes)
    (hg : e.globResult = GlobResult.nomatch)
    (hy : e.testPath (tensileYamlPath e) = true) :
    (tensileHostInit e).outcome = InitOutcome.loaded (tensileYamlPath e)
    ∧ (tensileHostInit e).loadedModules = []
    ∧ (tensileHostInit e).warnings
        = ["\nrocBLAS warning: No paths matched "
            ++ (resolveBasePath e ++ "/*" ++ e.processor ++ "*co")
            ++ ". Make sure that ROCBLAS_TENSILE_LIBPATH is set correctly."]
    ∧ (o.constructThrows = none → o.findBest = Except.ok false →
        dispatchContraction e o = Except.ok rocblas_status.not_implemented) := by
  have hy' : e.testPath (resolveBasePath e ++ "/TensileLibrary.yaml") = true := hy
  refine ⟨by simp [tensileHostInit, tensileYamlPath, hg, hy'],
    by simp [tensileHostInit, hg, hy'],
    by simp [tensileHostInit, hg, hy'],
    fun h1 h2 => ?_⟩
  simp [dispatchContraction, tensileHostInit, hy', runContractionProblem, tryBody,
    h1, h2]

/-- Witness for C7 at a concrete environment whose glob matched nothing and a
concrete call with no solution found: initialization loads, and the call
returns not-implemented. -/
theorem C7_zero_modules_nonfatal_witness :
    (tensileHostInit envNoModules).outcome
        = InitOutcome.loaded (tensileYamlPath envNoModules)
    ∧ dispatchContraction envNoModules outcomesNoSolution
        = Except.ok rocblas_status.not_implemented :=
  ⟨(C7_zero_modules_nonfatal envNoModules outcomesNoSolution rfl rfl).1,
   (C7_zero_modules_nonfatal envNoModules outcomesNoSolution rfl rfl).2.2.2 rfl rfl⟩

/-- C10: with a valid handle (and no device-memory-size query), a
hbmv_batched call whose sizes pass validation and whose n or batch_count is
zero returns success whatever the pointer arguments are (they are never
examined), and a call whose sizes fail validation returns invalid-size even
when every pointer is null — size validation precedes pointer validation. -/
theorem C10_hbmv_validation_order (tr : rocblas_status) (a : HbmvArgs)
    (hh : a.handle_null = false) (hq : a.is_size_query = false) :
    ((0 ≤ a.n ∧ 0 ≤ a.k ∧ a.k < a.lda ∧ a.incx ≠ 0 ∧ a.incy ≠ 0 ∧ 0 ≤ a.batch_count) →
      (a.n = 0 ∨ a.batch_count = 0) →
      rocblas_hbmv_batched_impl tr a = rocblas_status.success)
    ∧ (¬(0 ≤ a.n ∧ 0 ≤ a.k ∧ a.k < a.lda ∧ a.incx ≠ 0 ∧ a.incy ≠ 0 ∧ 0 ≤ a.batch_count) →
      rocblas_hbmv_batched_impl tr a = rocblas_status.invalid_size) := by
  constructor
  · intro hsz hzero
    have hcond : ¬(a.n < 0 ∨ a.k < 0 ∨ a.lda ≤ a.k ∨ a.incx = 0 ∨ a.incy = 0
        ∨ a.batch_count < 0) := by
      push_neg
      omega
    simp [rocblas_hbmv_batched_impl, hh, hq, hcond, hzero]
  · intro hsz
    have hcond : a.n < 0 ∨ a.k < 0 ∨ a.lda ≤ a.k ∨ a.incx = 0 ∨ a.incy = 0
        ∨ a.batch_count < 0 := by
      by_contra hc
      push_neg at hc
      exact hsz ⟨by omega, by omega, by omega, hc.2.2.2.1, hc.2.2.2.2.1, by omega⟩
    simp [rocblas_hbmv_batched_impl, hh, hq, hcond]

/-- Witness for C10 at two concrete argument sets, both with every pointer
null: one with valid sizes and n = 0 returning success, one with lda not
exceeding k returning invalid-size. -/
theorem C10_hbmv_validation_order_witness :
    rocblas_hbmv_batched_impl rocblas_status.internal_error hbmvArgsQuickReturn
        = rocblas_status.success
    ∧ rocblas_hbmv_batched_impl rocblas_status.internal_error hbmvArgsBadSize
        = rocblas_status.invalid_size :=
  ⟨(C10_hbmv_validation_order rocblas_status.internal_error hbmvArgsQuickReturn
      rfl rfl).1 (by decide) (by decide),
   (C10_hbmv_validation_order rocblas_status.internal_error hbmvArgsBadSize
      rfl rfl).2 (by decide)⟩
